import Mathlib

/-!
Verification development for `ip_blocker.py` (shamspias/ip-blocker).

The program keeps a JSON-backed list of blocked IP address strings and
mirrors each add/remove into an external firewall command (`ufw`).  The
embedding below translates the `IPBlocker` class into Lean:

* address validation (`validate_ip`, which calls the Python standard
  library `ipaddress.ip_address`) becomes an executable parser over
  `List Char`, following CPython's `ipaddress._BaseV4`/`_BaseV6` parsing
  algorithms (dotted-quad IPv4 with no leading zeros; IPv6 hextets with a
  single `::`, optional embedded IPv4 tail, optional non-empty `%scope`);
* the backing file (read/written only through `json.load` / `json.dump`,
  which are standard-library black boxes) is modelled at the value level
  by `FileState`: absent, or holding the serialized form of a string
  list, or holding content that `json.load` rejects;
* the external `subprocess.run` call is modelled by an `Env` giving the
  firewall command's exit code and captured standard-error text, and a
  `saveOk` flag saying whether the file write succeeds;
* each operation returns an `OpResult`: its outcome (or the propagating
  persistence exception), the post-state, and the trace of externally
  visible events (file writes, firewall invocations) in program order.
-/

namespace IPBlocker

/-! ### Model of `ipaddress.ip_address` (Python standard library) -/

/-- Python `str.split(sep)` for a one-character separator: splitting the
empty string yields `[""]`, and separators at the ends yield empty groups. -/
def splitOn (sep : Char) : List Char → List (List Char)
  | [] => [[]]
  | c :: cs =>
    let r := splitOn sep cs
    if c = sep then [] :: r
    else
      match r with
      | [] => [[c]]
      | g :: gs => (c :: g) :: gs

/-- Decimal value of a digit string (only applied to all-digit strings). -/
def decValue (s : List Char) : Nat :=
  s.foldl (fun n c => 10 * n + (c.toNat - '0'.toNat)) 0

/-- Hexadecimal digits accepted by `ipaddress._BaseV6._HEX_DIGITS`. -/
def isHexDigitChar (c : Char) : Bool :=
  c.isDigit || ('a' ≤ c && c ≤ 'f') || ('A' ≤ c && c ≤ 'F')

/-- Hexadecimal value of a hex-digit character. -/
def hexDigitVal (c : Char) : Nat :=
  if c.isDigit then c.toNat - '0'.toNat
  else if 'a' ≤ c && c ≤ 'f' then c.toNat - 'a'.toNat + 10
  else c.toNat - 'A'.toNat + 10

/-- Hexadecimal value of a hex-digit string. -/
def hexValue (s : List Char) : Nat :=
  s.foldl (fun n c => 16 * n + hexDigitVal c) 0

/-- CPython `ipaddress._BaseV4._parse_octet`: non-empty, decimal digits
only, at most 3 characters, no leading zero, value at most 255. -/
def parseOctet (s : List Char) : Option Nat :=
  if s.isEmpty then none
  else if ¬ s.all Char.isDigit then none
  else if s.length > 3 then none
  else if s.length > 1 && s.headD 'x' = '0' then none
  else
    let n := decValue s
    if n > 255 then none else some n

/-- CPython `ipaddress._BaseV4._ip_int_from_string`: exactly four octets
separated by dots, packed big-endian. -/
def parseIPv4 (s : List Char) : Option Nat := do
  let octets := splitOn '.' s
  if octets.length ≠ 4 then none
  else
    let vals ← octets.mapM parseOctet
    pure (vals.foldl (fun acc v => acc * 256 + v) 0)

/-- CPython `ipaddress._BaseV6._parse_hextet`: hex digits only, at most 4
characters, non-empty (`int('', 16)` raises). -/
def parseHextet (s : List Char) : Option Nat :=
  if ¬ s.all isHexDigitChar then none
  else if s.length > 4 then none
  else if s.isEmpty then none
  else some (hexValue s)

/-- Lowercase hex rendering of a number, as Python `'%x' % n` (used by
CPython to re-inject an embedded IPv4 tail as two hextets). -/
def toHexChars (n : Nat) : List Char :=
  Nat.toDigits 16 n

/-- Big-endian accumulation of 16-bit hextet values. -/
def foldHextets (acc : Nat) (vals : List Nat) : Nat :=
  vals.foldl (fun a v => a * 65536 + v) acc

/-- CPython `ipaddress._BaseV6._ip_int_from_string` on the address part
(scope id already stripped): split on `:`, at least 3 parts, convert an
IPv4-style last part into two hextets, allow one `::` run, and require
exactly 8 hextets otherwise. -/
def parseIPv6Core (addr : List Char) : Option Nat := do
  let parts0 := splitOn ':' addr
  if parts0.length < 3 then none
  else
    let parts ←
      if (parts0.getLastD []).contains '.' then do
        let v4 ← parseIPv4 (parts0.getLastD [])
        pure (parts0.dropLast ++ [toHexChars (v4 / 65536), toHexChars (v4 % 65536)])
      else pure parts0
    if parts.length > 9 then none
    else
      match (List.range parts.length).filter
          (fun i => decide (0 < i) && decide (i + 1 < parts.length)
            && (parts.getD i ['x']).isEmpty) with
      | [] =>
        if parts.length ≠ 8 then none
        else if (parts.headD ['x']).isEmpty then none
        else if (parts.getLastD ['x']).isEmpty then none
        else do
          let vals ← parts.mapM parseHextet
          pure (foldHextets 0 vals)
      | [si] => do
        let hi ←
          if (parts.headD ['x']).isEmpty then
            if si - 1 ≠ 0 then none else pure 0
          else pure si
        let lo0 := parts.length - si - 1
        let lo ←
          if (parts.getLastD ['x']).isEmpty then
            if lo0 - 1 ≠ 0 then none else pure 0
          else pure lo0
        if 8 ≤ hi + lo then none
        else do
          let hiVals ← (parts.take hi).mapM parseHextet
          let loVals ← (parts.drop (parts.length - lo)).mapM parseHextet
          pure (foldHextets (foldHextets 0 hiVals * 65536 ^ (8 - (hi + lo))) loVals)
      | _ => none

/-- CPython `IPv6Address.__init__`: reject `/`, strip an optional
`%scope` (which must be non-empty and contain no further `%`), then
parse the address part. -/
def parseIPv6 (s : List Char) : Option Nat :=
  if s.contains '/' then none
  else
    match splitOn '%' s with
    | [addr] => parseIPv6Core addr
    | [addr, scope] => if scope.isEmpty then none else parseIPv6Core addr
    | _ => none

/-- A parsed IP address value: the numeric form CPython stores in
`_ip`, tagged with the address family. -/
inductive IPAddr where
  | v4 (n : Nat)
  | v6 (n : Nat)
deriving DecidableEq, Repr

/-- CPython `ipaddress.ip_address(str)`: try `IPv4Address`, then
`IPv6Address`; `none` models the `ValueError` for invalid input. -/
def ip_address (s : String) : Option IPAddr :=
  match parseIPv4 s.data with
  | some n => some (.v4 n)
  | none =>
    match parseIPv6 s.data with
    | some n => some (.v6 n)
    | none => none

/-- `IPBlocker.validate_ip`: `True` exactly when `ipaddress.ip_address`
does not raise. -/
def validate_ip (s : String) : Bool :=
  (ip_address s).isSome

example : validate_ip "192.168.1.10" = true := by decide
example : validate_ip "10.0.0.5" = true := by decide
example : validate_ip "::1" = true := by decide
example : validate_ip "0:0:0:0:0:0:0:1" = true := by decide
example : ip_address "0:0:0:0:0:0:0:1" = some (.v6 1) := by decide
example : validate_ip "not-an-ip" = false := by decide
example : validate_ip "" = false := by decide
example : validate_ip "10.0.0.0/24" = false := by decide
example : validate_ip "example.com" = false := by decide
example : validate_ip "1.2.3.256" = false := by decide
example : validate_ip "::ffff:1.2.3.4" = true := by decide
example : validate_ip "fe80::1%eth0" = true := by decide
example : validate_ip "fe80::1%" = false := by decide
example : validate_ip "1:::2" = false := by decide
example : validate_ip ":1:2:3:4:5:6:7" = false := by decide
example : validate_ip "::" = true := by decide
example : ip_address "abcd::" = ip_address "ABCD:0:0:0:0:0:0:0" := by decide

/-! ### Model of the blocklist state, persistence, and operations -/

/-- The in-memory blocklist: a Python list of address strings. -/
abbrev BlockList := List String

/-- The backing file, seen through `json.load` / `json.dump` (standard
library, treated as a black box at the JSON-value level): the file is
absent (`open` raises `FileNotFoundError`), or holds the serialization
`json.dump` produces for a string list `l` (which `json.load` decodes
back to `l`), or holds content that `json.load` rejects with a decode
error. -/
inductive FileState where
  | absent
  | stored (l : BlockList)
  | malformed (content : String)
deriving DecidableEq, Repr

/-- The persistence failures of the spec's taxonomy: a decode error on
read, or a write failure.  In the Python code both surface as uncaught
exceptions (`json.JSONDecodeError`, `OSError`). -/
inductive PersistenceError where
  | malformedContent
  | writeFailure
deriving DecidableEq, Repr

/-- `IPBlocker.load_blocklist`: catches only `FileNotFoundError`
(returning `[]`); a decode error on existing content propagates. -/
def load_blocklist : FileState → Except PersistenceError BlockList
  | .absent => .ok []
  | .stored l => .ok l
  | .malformed _ => .error .malformedContent

/-- The environment of one operation: whether the file write succeeds,
and the firewall subprocess's exit code and captured standard error. -/
structure Env where
  saveOk : Bool
  fwExit : Nat
  fwStderr : String
deriving DecidableEq, Repr

/-- `IPBlocker.save_blocklist`: `json.dump` of the list over the whole
file; an `OSError` on open/write propagates. -/
def save_blocklist (env : Env) (l : BlockList) : Except PersistenceError FileState :=
  if env.saveOk then .ok (.stored l) else .error .writeFailure

/-- The outcome an operation reports (in the Python code, via its print
and log messages). -/
inductive Outcome where
  | validationError
  | alreadyBlocked
  | blocked
  | firewallApplyFailed (diag : String)
  | notBlocked
  | unblocked
deriving DecidableEq, Repr

/-- Externally visible events of one operation, in program order. -/
inductive Event where
  | fileWrite (l : BlockList)
  | firewallRun (args : List String)
deriving DecidableEq, Repr

/-- The manager's state: the in-memory list and the backing file. -/
structure State where
  blocklist : BlockList
  file : FileState
deriving DecidableEq, Repr

/-- Result of one operation: the reported outcome (or the propagating
persistence exception), the post-state, and the event trace. -/
structure OpResult where
  result : Except PersistenceError Outcome
  state : State
  trace : List Event
deriving Repr

/-- Arguments of the firewall command run by `add_ip`. -/
def denyArgs (ip : String) : List String :=
  ["ufw", "deny", "from", ip]

/-- Arguments of the firewall command run by `remove_ip`. -/
def deleteDenyArgs (ip : String) : List String :=
  ["ufw", "--force", "delete", "deny", "from", ip]

/-- Python `str.strip()` restricted to ASCII whitespace, applied by the
code to the captured standard-error bytes. -/
def pyStrip (s : String) : String :=
  ⟨((s.data.dropWhile Char.isWhitespace).reverse.dropWhile Char.isWhitespace).reverse⟩

/-- `IPBlocker.add_ip`: validate; no-op if already present; append to
the in-memory list, save (a failure propagates before any firewall
call), then run `ufw deny from <ip>`, reporting the stripped stderr on a
non-zero exit and keeping the entry either way. -/
def add_ip (env : Env) (s : State) (ip : String) : OpResult :=
  if ¬ validate_ip ip then ⟨.ok .validationError, s, []⟩
  else if ip ∈ s.blocklist then ⟨.ok .alreadyBlocked, s, []⟩
  else
    let bl := s.blocklist ++ [ip]
    match save_blocklist env bl with
    | .error e => ⟨.error e, { s with blocklist := bl }, []⟩
    | .ok f =>
      let t := [Event.fileWrite bl, Event.firewallRun (denyArgs ip)]
      if env.fwExit = 0 then ⟨.ok .blocked, ⟨bl, f⟩, t⟩
      else ⟨.ok (.firewallApplyFailed (pyStrip env.fwStderr)), ⟨bl, f⟩, t⟩

/-- `IPBlocker.remove_ip`: validate; no-op if absent; `list.remove`
drops the first occurrence, save, then run
`ufw --force delete deny from <ip>`, with the same failure handling as
`add_ip`. -/
def remove_ip (env : Env) (s : State) (ip : String) : OpResult :=
  if ¬ validate_ip ip then ⟨.ok .validationError, s, []⟩
  else if ip ∉ s.blocklist then ⟨.ok .notBlocked, s, []⟩
  else
    let bl := s.blocklist.erase ip
    match save_blocklist env bl with
    | .error e => ⟨.error e, { s with blocklist := bl }, []⟩
    | .ok f =>
      let t := [Event.fileWrite bl, Event.firewallRun (deleteDenyArgs ip)]
      if env.fwExit = 0 then ⟨.ok .unblocked, ⟨bl, f⟩, t⟩
      else ⟨.ok (.firewallApplyFailed (pyStrip env.fwStderr)), ⟨bl, f⟩, t⟩

/-- `IPBlocker.check_ip`: validate, then report membership in the
in-memory list; no mutation, no file write, no firewall call. -/
def check_ip (s : State) (ip : String) : Outcome :=
  if ¬ validate_ip ip then .validationError
  else if ip ∈ s.blocklist then .blocked
  else .notBlocked

/-- An environment where the file write succeeds and the firewall
command exits 0. -/
def okEnv : Env := ⟨true, 0, ""⟩

/-- No firewall command is invoked in the trace. -/
def firewallFree (t : List Event) : Prop :=
  ∀ args, Event.firewallRun args ∉ t

/-- Every firewall invocation in the trace is preceded by a completed
file write. -/
def writeBeforeFirewall (t : List Event) : Prop :=
  ∀ j args, t.get? j = some (.firewallRun args) →
    ∃ i l, i < j ∧ t.get? i = some (.fileWrite l)

example :
    (add_ip okEnv ⟨[], .absent⟩ "10.0.0.5").result = .ok .blocked := rfl
example :
    (add_ip okEnv ⟨[], .absent⟩ "10.0.0.5").state.blocklist = ["10.0.0.5"] := by decide
example :
    (add_ip ⟨true, 1, " boom \n"⟩ ⟨[], .absent⟩ "10.0.0.5").result
      = .ok (.firewallApplyFailed "boom") := rfl
example :
    (remove_ip okEnv ⟨["10.0.0.5"], .stored ["10.0.0.5"]⟩ "10.0.0.5").state
      = ⟨[], .stored []⟩ := by decide
example : check_ip ⟨["::1"], .absent⟩ "0:0:0:0:0:0:0:1" = .notBlocked := by decide

/-! ### Branch characterizations of the operations -/

theorem add_ip_invalid (env : Env) (s : State) (ip : String)
    (h : validate_ip ip = false) :
    add_ip env s ip = ⟨.ok .validationError, s, []⟩ := by
  simp [add_ip, h]

theorem add_ip_already (env : Env) (s : State) (ip : String)
    (hv : validate_ip ip = true) (hm : ip ∈ s.blocklist) :
    add_ip env s ip = ⟨.ok .alreadyBlocked, s, []⟩ := by
  simp [add_ip, hv, hm]

theorem add_ip_save_failure (env : Env) (s : State) (ip : String)
    (hv : validate_ip ip = true) (hm : ip ∉ s.blocklist) (hs : env.saveOk = false) :
    add_ip env s ip = ⟨.error .writeFailure, ⟨s.blocklist ++ [ip], s.file⟩, []⟩ := by
  simp [add_ip, hv, hm, save_blocklist, hs]

theorem add_ip_success (env : Env) (s : State) (ip : String)
    (hv : validate_ip ip = true) (hm : ip ∉ s.blocklist)
    (hs : env.saveOk = true) (hx : env.fwExit = 0) :
    add_ip env s ip =
      ⟨.ok .blocked, ⟨s.blocklist ++ [ip], .stored (s.blocklist ++ [ip])⟩,
        [.fileWrite (s.blocklist ++ [ip]), .firewallRun (denyArgs ip)]⟩ := by
  simp [add_ip, hv, hm, save_blocklist, hs, hx]

theorem add_ip_firewall_failure (env : Env) (s : State) (ip : String)
    (hv : validate_ip ip = true) (hm : ip ∉ s.blocklist)
    (hs : env.saveOk = true) (hx : env.fwExit ≠ 0) :
    add_ip env s ip =
      ⟨.ok (.firewallApplyFailed (pyStrip env.fwStderr)),
        ⟨s.blocklist ++ [ip], .stored (s.blocklist ++ [ip])⟩,
        [.fileWrite (s.blocklist ++ [ip]), .firewallRun (denyArgs ip)]⟩ := by
  simp [add_ip, hv, hm, save_blocklist, hs, hx]

theorem remove_ip_invalid (env : Env) (s : State) (ip : String)
    (h : validate_ip ip = false) :
    remove_ip env s ip = ⟨.ok .validationError, s, []⟩ := by
  simp [remove_ip, h]

theorem remove_ip_absent (env : Env) (s : State) (ip : String)
    (hv : validate_ip ip = true) (hm : ip ∉ s.blocklist) :
    remove_ip env s ip = ⟨.ok .notBlocked, s, []⟩ := by
  simp [remove_ip, hv, hm]

theorem remove_ip_save_failure (env : Env) (s : State) (ip : String)
    (hv : validate_ip ip = true) (hm : ip ∈ s.blocklist) (hs : env.saveOk = false) :
    remove_ip env s ip = ⟨.error .writeFailure, ⟨s.blocklist.erase ip, s.file⟩, []⟩ := by
  simp [remove_ip, hv, hm, save_blocklist, hs]

theorem remove_ip_success (env : Env) (s : State) (ip : String)
    (hv : validate_ip ip = true) (hm : ip ∈ s.blocklist)
    (hs : env.saveOk = true) (hx : env.fwExit = 0) :
    remove_ip env s ip =
      ⟨.ok .unblocked, ⟨s.blocklist.erase ip, .stored (s.blocklist.erase ip)⟩,
        [.fileWrite (s.blocklist.erase ip), .firewallRun (deleteDenyArgs ip)]⟩ := by
  simp [remove_ip, hv, hm, save_blocklist, hs, hx]

theorem remove_ip_firewall_failure (env : Env) (s : State) (ip : String)
    (hv : validate_ip ip = true) (hm : ip ∈ s.blocklist)
    (hs : env.saveOk = true) (hx : env.fwExit ≠ 0) :
    remove_ip env s ip =
      ⟨.ok (.firewallApplyFailed (pyStrip env.fwStderr)),
        ⟨s.blocklist.erase ip, .stored (s.blocklist.erase ip)⟩,
        [.fileWrite (s.blocklist.erase ip), .firewallRun (deleteDenyArgs ip)]⟩ := by
  simp [remove_ip, hv, hm, save_blocklist, hs, hx]

/-- Whatever the environment does, a valid address that was absent ends
up appended verbatim to the in-memory list. -/
theorem add_ip_blocklist_eq (env : Env) (s : State) (ip : String)
    (hv : validate_ip ip = true) (hm : ip ∉ s.blocklist) :
    (add_ip env s ip).state.blocklist = s.blocklist ++ [ip] := by
  cases hs : env.saveOk
  · rw [add_ip_save_failure env s ip hv hm hs]
  · by_cases hx : env.fwExit = 0
    · rw [add_ip_success env s ip hv hm hs hx]
    · rw [add_ip_firewall_failure env s ip hv hm hs hx]

/-- Whatever the environment does, after `remove_ip` of a valid address
the in-memory list is the original with the first occurrence erased. -/
theorem remove_ip_blocklist_eq (env : Env) (s : State) (ip : String)
    (hv : validate_ip ip = true) :
    (remove_ip env s ip).state.blocklist = s.blocklist.erase ip := by
  by_cases hm : ip ∈ s.blocklist
  · cases hs : env.saveOk
    · rw [remove_ip_save_failure env s ip hv hm hs]
    · by_cases hx : env.fwExit = 0
      · rw [remove_ip_success env s ip hv hm hs hx]
      · rw [remove_ip_firewall_failure env s ip hv hm hs hx]
  · rw [remove_ip_absent env s ip hv hm]
    exact (List.erase_of_not_mem hm).symm

/-- The event trace of `add_ip` is empty, or the save succeeded and the
trace is the file write followed by the firewall invocation. -/
theorem add_ip_trace_cases (env : Env) (s : State) (ip : String) :
    (add_ip env s ip).trace = [] ∨
      (env.saveOk = true ∧ (add_ip env s ip).trace
        = [.fileWrite (s.blocklist ++ [ip]), .firewallRun (denyArgs ip)]) := by
  cases hv : validate_ip ip
  · left; rw [add_ip_invalid env s ip hv]
  · by_cases hm : ip ∈ s.blocklist
    · left; rw [add_ip_already env s ip hv hm]
    · cases hs : env.saveOk
      · left; rw [add_ip_save_failure env s ip hv hm hs]
      · right
        refine ⟨rfl, ?_⟩
        by_cases hx : env.fwExit = 0
        · rw [add_ip_success env s ip hv hm hs hx]
        · rw [add_ip_firewall_failure env s ip hv hm hs hx]

/-- The event trace of `remove_ip` is empty, or the save succeeded and
the trace is the file write followed by the firewall invocation. -/
theorem remove_ip_trace_cases (env : Env) (s : State) (ip : String) :
    (remove_ip env s ip).trace = [] ∨
      (env.saveOk = true ∧ (remove_ip env s ip).trace
        = [.fileWrite (s.blocklist.erase ip), .firewallRun (deleteDenyArgs ip)]) := by
  cases hv : validate_ip ip
  · left; rw [remove_ip_invalid env s ip hv]
  · by_cases hm : ip ∈ s.blocklist
    · cases hs : env.saveOk
      · left; rw [remove_ip_save_failure env s ip hv hm hs]
      · right
        refine ⟨rfl, ?_⟩
        by_cases hx : env.fwExit = 0
        · rw [remove_ip_success env s ip hv hm hs hx]
        · rw [remove_ip_firewall_failure env s ip hv hm hs hx]
    · left; rw [remove_ip_absent env s ip hv hm]

theorem firewallFree_nil : firewallFree [] := by
  intro args h
  simp at h

theorem writeBeforeFirewall_nil : writeBeforeFirewall [] := by
  intro j args h
  simp at h

theorem writeBeforeFirewall_pair (l : BlockList) (a : List String) :
    writeBeforeFirewall [Event.fileWrite l, Event.firewallRun a] := by
  intro j args h
  refine ⟨0, l, ?_, rfl⟩
  match j with
  | 0 => simp at h
  | 1 => exact Nat.zero_lt_one
  | n + 2 => simp at h

/-! ### The claims -/

/-- C1: `load()` returns the empty list when the backing file is absent,
and fails with a persistence error for every backing file that exists
but holds malformed content — the error propagates, the list is not
silently reset to empty. -/
theorem load_absent_empty_malformed_propagates :
    load_blocklist .absent = .ok ([] : BlockList) ∧
      ∀ c : String, load_blocklist (.malformed c) = .error .malformedContent :=
  ⟨rfl, fun _ => rfl⟩

/-- C2 counterexample: `"ABCD::"` and `"abcd::"` are two textually
different, both-accepted spellings of the same IPv6 address, yet `add`
stores different entries for them — so the stored entry is not the
canonical normalized form of the address. -/
theorem add_not_canonical_counterexample :
    validate_ip "ABCD::" = true ∧ validate_ip "abcd::" = true ∧
    ip_address "ABCD::" = ip_address "abcd::" ∧
    (add_ip okEnv ⟨[], .absent⟩ "ABCD::").state.blocklist ≠
      (add_ip okEnv ⟨[], .absent⟩ "abcd::").state.blocklist := by
  refine ⟨by decide, by decide, by decide, by decide⟩

/-- C2 (amended): for every input string accepted by address validation
and not yet present, the entry `add` stores is the input string exactly
as given — validated but not normalized, so different spellings of the
same address are stored as distinct entries. -/
theorem add_stores_input_verbatim (env : Env) (s : State) (ip : String)
    (hv : validate_ip ip = true) (hm : ip ∉ s.blocklist) :
    (add_ip env s ip).state.blocklist = s.blocklist ++ [ip] :=
  add_ip_blocklist_eq env s ip hv hm

/-- C2 witness. -/
theorem add_stores_input_verbatim_witness :
    (add_ip okEnv ⟨[], .absent⟩ "0:0:0:0:0:0:0:1").state.blocklist
      = [] ++ ["0:0:0:0:0:0:0:1"] :=
  add_stores_input_verbatim okEnv ⟨[], .absent⟩ "0:0:0:0:0:0:0:1"
    (by decide) (by decide)

/-- C3: in every mutating operation the file write completes before the
firewall command is invoked, and when the save fails the firewall
command is never invoked in that operation. -/
theorem write_completes_before_firewall (env : Env) (s : State) (ip : String) :
    (writeBeforeFirewall (add_ip env s ip).trace ∧
      (env.saveOk = false → firewallFree (add_ip env s ip).trace)) ∧
    (writeBeforeFirewall (remove_ip env s ip).trace ∧
      (env.saveOk = false → firewallFree (remove_ip env s ip).trace)) := by
  refine ⟨⟨?_, ?_⟩, ?_, ?_⟩
  · rcases add_ip_trace_cases env s ip with h | ⟨_, h⟩ <;> rw [h]
    · exact writeBeforeFirewall_nil
    · exact writeBeforeFirewall_pair _ _
  · intro hs
    rcases add_ip_trace_cases env s ip with h | ⟨hs', h⟩
    · rw [h]; exact firewallFree_nil
    · rw [hs] at hs'; cases hs'
  · rcases remove_ip_trace_cases env s ip with h | ⟨_, h⟩ <;> rw [h]
    · exact writeBeforeFirewall_nil
    · exact writeBeforeFirewall_pair _ _
  · intro hs
    rcases remove_ip_trace_cases env s ip with h | ⟨hs', h⟩
    · rw [h]; exact firewallFree_nil
    · rw [hs] at hs'; cases hs'

/-- C3 witness: with a failing save, `add` of a fresh valid address
invokes no firewall command. -/
theorem write_completes_before_firewall_witness :
    firewallFree (add_ip ⟨false, 0, ""⟩ ⟨[], .absent⟩ "192.168.1.10").trace :=
  (write_completes_before_firewall ⟨false, 0, ""⟩ ⟨[], .absent⟩ "192.168.1.10").1.2 rfl

/-- C4: when the firewall command exits non-zero during `add` of a valid
absent address, the outcome is `FirewallApplyFailed` carrying the
command's captured (stripped) standard-error text, and the address stays
in both the in-memory and the persisted list — no rollback. -/
theorem add_firewall_failure_keeps_entry (env : Env) (s : State) (ip : String)
    (hv : validate_ip ip = true) (hm : ip ∉ s.blocklist)
    (hs : env.saveOk = true) (hx : env.fwExit ≠ 0) :
    (add_ip env s ip).result = .ok (.firewallApplyFailed (pyStrip env.fwStderr)) ∧
    ip ∈ (add_ip env s ip).state.blocklist ∧
    (add_ip env s ip).state.file = .stored (s.blocklist ++ [ip]) ∧
    ip ∈ s.blocklist ++ [ip] := by
  rw [add_ip_firewall_failure env s ip hv hm hs hx]
  refine ⟨rfl, ?_, rfl, ?_⟩ <;> simp

/-- C4 witness. -/
theorem add_firewall_failure_keeps_entry_witness :
    (add_ip ⟨true, 1, "ERROR: ufw failed"⟩ ⟨[], .absent⟩ "10.0.0.5").result
      = .ok (.firewallApplyFailed (pyStrip "ERROR: ufw failed")) ∧
    "10.0.0.5" ∈ (add_ip ⟨true, 1, "ERROR: ufw failed"⟩ ⟨[], .absent⟩ "10.0.0.5").state.blocklist ∧
    (add_ip ⟨true, 1, "ERROR: ufw failed"⟩ ⟨[], .absent⟩ "10.0.0.5").state.file
      = .stored ([] ++ ["10.0.0.5"]) ∧
    "10.0.0.5" ∈ [] ++ ["10.0.0.5"] :=
  add_firewall_failure_keeps_entry ⟨true, 1, "ERROR: ufw failed"⟩ ⟨[], .absent⟩
    "10.0.0.5" (by decide) (by decide) rfl (by decide)

/-- C5: starting from a list without `ip`, two successive `add(ip)`
calls yield `Blocked` then `AlreadyBlocked`; the second call writes no
file, invokes no firewall and leaves the state untouched, and the
persisted list holds `ip` exactly once. -/
theorem add_twice_blocked_then_already (env : Env) (s : State) (ip : String)
    (hv : validate_ip ip = true) (hm : ip ∉ s.blocklist)
    (hs : env.saveOk = true) (hx : env.fwExit = 0) :
    (add_ip env s ip).result = .ok .blocked ∧
    (add_ip env (add_ip env s ip).state ip).result = .ok .alreadyBlocked ∧
    (add_ip env (add_ip env s ip).state ip).trace = [] ∧
    (add_ip env (add_ip env s ip).state ip).state = (add_ip env s ip).state ∧
    (add_ip env s ip).state.file = .stored (s.blocklist ++ [ip]) ∧
    (s.blocklist ++ [ip]).count ip = 1 := by
  rw [add_ip_success env s ip hv hm hs hx]
  rw [add_ip_already env ⟨s.blocklist ++ [ip], .stored (s.blocklist ++ [ip])⟩ ip hv (by simp)]
  refine ⟨rfl, rfl, rfl, rfl, rfl, ?_⟩
  simp [List.count_append, List.count_eq_zero_of_not_mem hm]

/-- C5 witness. -/
theorem add_twice_blocked_then_already_witness :
    (add_ip okEnv ⟨[], .absent⟩ "192.168.1.10").result = .ok .blocked ∧
    (add_ip okEnv (add_ip okEnv ⟨[], .absent⟩ "192.168.1.10").state "192.168.1.10").result
      = .ok .alreadyBlocked ∧
    (add_ip okEnv (add_ip okEnv ⟨[], .absent⟩ "192.168.1.10").state "192.168.1.10").trace = [] ∧
    (add_ip okEnv (add_ip okEnv ⟨[], .absent⟩ "192.168.1.10").state "192.168.1.10").state
      = (add_ip okEnv ⟨[], .absent⟩ "192.168.1.10").state ∧
    (add_ip okEnv ⟨[], .absent⟩ "192.168.1.10").state.file
      = .stored ([] ++ ["192.168.1.10"]) ∧
    (([] : BlockList) ++ ["192.168.1.10"]).count "192.168.1.10" = 1 :=
  add_twice_blocked_then_already okEnv ⟨[], .absent⟩ "192.168.1.10"
    (by decide) (by decide) rfl rfl

/-- C6: for every BlockList, saving it and loading it back returns the
same list, element for element and in order. -/
theorem save_load_round_trip (env : Env) (l : BlockList)
    (hs : env.saveOk = true) :
    (save_blocklist env l).bind load_blocklist = .ok l := by
  simp [save_blocklist, hs, load_blocklist, Except.bind]

/-- C6 witness. -/
theorem save_load_round_trip_witness :
    (save_blocklist okEnv ["192.168.1.10", "::1"]).bind load_blocklist
      = .ok ["192.168.1.10", "::1"] :=
  save_load_round_trip okEnv ["192.168.1.10", "::1"] rfl

/-- C7 counterexample: from a starting list holding `"1.2.3.4"` twice,
`remove` deletes only the first occurrence and the following `check`
yields `Blocked`, not `NotBlocked`; and for the invalid input
`"not-an-ip"` the following `check` yields `ValidationError`, not
`NotBlocked`. -/
theorem remove_then_check_counterexample :
    check_ip (remove_ip okEnv
        ⟨["1.2.3.4", "1.2.3.4"], .stored ["1.2.3.4", "1.2.3.4"]⟩ "1.2.3.4").state
      "1.2.3.4" = .blocked ∧
    check_ip (remove_ip okEnv ⟨[], .absent⟩ "not-an-ip").state "not-an-ip"
      = .validationError := by
  refine ⟨by decide, by decide⟩

/-- C7 (amended): for every syntactically valid `ip` and every starting
list in which `ip` occurs at most once, `remove(ip)` followed by
`check(ip)` yields `NotBlocked`. -/
theorem remove_then_check_not_blocked (env : Env) (s : State) (ip : String)
    (hv : validate_ip ip = true) (hc : s.blocklist.count ip ≤ 1) :
    check_ip (remove_ip env s ip).state ip = .notBlocked := by
  have hb := remove_ip_blocklist_eq env s ip hv
  have hnm : ip ∉ s.blocklist.erase ip := by
    intro hmem
    have hpos := List.count_pos_iff.mpr hmem
    rw [List.count_erase_self] at hpos
    omega
  simp [check_ip, hv, hb, hnm]

/-- C7 witness. -/
theorem remove_then_check_not_blocked_witness :
    check_ip (remove_ip okEnv
        ⟨["192.168.1.10"], .stored ["192.168.1.10"]⟩ "192.168.1.10").state
      "192.168.1.10" = .notBlocked :=
  remove_then_check_not_blocked okEnv ⟨["192.168.1.10"], .stored ["192.168.1.10"]⟩
    "192.168.1.10" (by decide) (by decide)

/-- C8: every input rejected by address validation makes `add`, `remove`
and `check` report `ValidationError` while the state (in-memory list and
backing file) is unchanged and no event — file write or firewall
invocation — occurs. -/
theorem invalid_input_rejected_unchanged (env : Env) (s : State) (ip : String)
    (h : validate_ip ip = false) :
    add_ip env s ip = ⟨.ok .validationError, s, []⟩ ∧
    remove_ip env s ip = ⟨.ok .validationError, s, []⟩ ∧
    check_ip s ip = .validationError :=
  ⟨add_ip_invalid env s ip h, remove_ip_invalid env s ip h, by simp [check_ip, h]⟩

/-- C8 witness. -/
theorem invalid_input_rejected_unchanged_witness :
    add_ip okEnv ⟨["10.0.0.5"], .stored ["10.0.0.5"]⟩ "not-an-ip"
      = ⟨.ok .validationError, ⟨["10.0.0.5"], .stored ["10.0.0.5"]⟩, []⟩ ∧
    remove_ip okEnv ⟨["10.0.0.5"], .stored ["10.0.0.5"]⟩ "not-an-ip"
      = ⟨.ok .validationError, ⟨["10.0.0.5"], .stored ["10.0.0.5"]⟩, []⟩ ∧
    check_ip ⟨["10.0.0.5"], .stored ["10.0.0.5"]⟩ "not-an-ip" = .validationError :=
  invalid_input_rejected_unchanged okEnv ⟨["10.0.0.5"], .stored ["10.0.0.5"]⟩
    "not-an-ip" (by decide)

/-- C9: when the loaded list holds the same valid address at least
twice, `remove(ip)` erases only the first occurrence, so `ip` is still
present afterwards and a subsequent `check(ip)` yields `Blocked`. -/
theorem remove_duplicate_keeps_address (env : Env) (s : State) (ip : String)
    (hv : validate_ip ip = true) (hc : 2 ≤ s.blocklist.count ip) :
    ip ∈ (remove_ip env s ip).state.blocklist ∧
    check_ip (remove_ip env s ip).state ip = .blocked := by
  have hb := remove_ip_blocklist_eq env s ip hv
  have hmem : ip ∈ s.blocklist.erase ip := by
    apply List.count_pos_iff.mp
    rw [List.count_erase_self]
    omega
  rw [hb]
  exact ⟨hmem, by simp [check_ip, hv, hb, hmem]⟩

/-- C9 witness. -/
theorem remove_duplicate_keeps_address_witness :
    "8.8.8.8" ∈ (remove_ip okEnv
        ⟨["8.8.8.8", "8.8.8.8"], .stored ["8.8.8.8", "8.8.8.8"]⟩ "8.8.8.8").state.blocklist ∧
    check_ip (remove_ip okEnv
        ⟨["8.8.8.8", "8.8.8.8"], .stored ["8.8.8.8", "8.8.8.8"]⟩ "8.8.8.8").state
      "8.8.8.8" = .blocked :=
  remove_duplicate_keeps_address okEnv
    ⟨["8.8.8.8", "8.8.8.8"], .stored ["8.8.8.8", "8.8.8.8"]⟩ "8.8.8.8"
    (by decide) (by decide)

/-- C10: membership across `add`, `remove` and `check` is decided by
exact string equality on the input as given, never by address-value
equality: for every valid input, `check` reports `Blocked` iff the
literal string is in the list, `add` reports `AlreadyBlocked` iff the
literal string is in the list, and `remove` reports `NotBlocked` iff the
literal string is not in the list; concretely, after
`add("0:0:0:0:0:0:0:1")` succeeds, `check("::1")` yields `NotBlocked`,
`remove("::1")` on that list is a no-op reporting `NotBlocked`, and
`add("::1")` appends a second entry for the same address value. -/
theorem membership_is_exact_string :
    (∀ (s : State) (ip : String), validate_ip ip = true →
      (check_ip s ip = .blocked ↔ ip ∈ s.blocklist)) ∧
    (∀ (env : Env) (s : State) (ip : String), validate_ip ip = true →
      ((add_ip env s ip).result = .ok .alreadyBlocked ↔ ip ∈ s.blocklist)) ∧
    (∀ (env : Env) (s : State) (ip : String), validate_ip ip = true →
      ((remove_ip env s ip).result = .ok .notBlocked ↔ ip ∉ s.blocklist)) ∧
    (add_ip okEnv ⟨[], .absent⟩ "0:0:0:0:0:0:0:1").state.blocklist
      = ["0:0:0:0:0:0:0:1"] ∧
    ip_address "0:0:0:0:0:0:0:1" = ip_address "::1" ∧
    (ip_address "::1").isSome = true ∧
    check_ip (add_ip okEnv ⟨[], .absent⟩ "0:0:0:0:0:0:0:1").state "::1"
      = .notBlocked ∧
    remove_ip okEnv ⟨["0:0:0:0:0:0:0:1"], .stored ["0:0:0:0:0:0:0:1"]⟩ "::1"
      = ⟨.ok .notBlocked, ⟨["0:0:0:0:0:0:0:1"], .stored ["0:0:0:0:0:0:0:1"]⟩, []⟩ ∧
    (add_ip okEnv (add_ip okEnv ⟨[], .absent⟩ "0:0:0:0:0:0:0:1").state "::1").state.blocklist
      = ["0:0:0:0:0:0:0:1", "::1"] := by
  refine ⟨?_, ?_, ?_, by decide, by decide, by decide, by decide, rfl, by decide⟩
  · intro s ip hv
    by_cases hm : ip ∈ s.blocklist <;> simp [check_ip, hv, hm]
  · intro env s ip hv
    by_cases hm : ip ∈ s.blocklist
    · rw [add_ip_already env s ip hv hm]
      simp [hm]
    · refine ⟨fun h => ?_, fun h => absurd h hm⟩
      cases hs : env.saveOk
      · rw [add_ip_save_failure env s ip hv hm hs] at h
        simp at h
      · by_cases hx : env.fwExit = 0
        · rw [add_ip_success env s ip hv hm hs hx] at h
          simp at h
        · rw [add_ip_firewall_failure env s ip hv hm hs hx] at h
          simp at h
  · intro env s ip hv
    by_cases hm : ip ∈ s.blocklist
    · refine ⟨fun h => ?_, fun h => absurd hm h⟩
      cases hs : env.saveOk
      · rw [remove_ip_save_failure env s ip hv hm hs] at h
        simp at h
      · by_cases hx : env.fwExit = 0
        · rw [remove_ip_success env s ip hv hm hs hx] at h
          simp at h
        · rw [remove_ip_firewall_failure env s ip hv hm hs hx] at h
          simp at h
    · rw [remove_ip_absent env s ip hv hm]
      simp [hm]

/-- C10 witness. -/
theorem membership_is_exact_string_witness :
    check_ip ⟨["1.2.3.4"], .absent⟩ "1.2.3.4" = .blocked ∧
    (remove_ip okEnv ⟨["1.2.3.4"], .absent⟩ "5.6.7.8").result = .ok .notBlocked :=
  ⟨(membership_is_exact_string.1 ⟨["1.2.3.4"], .absent⟩ "1.2.3.4"
      (by decide)).mpr (by decide),
   (membership_is_exact_string.2.2.1 okEnv ⟨["1.2.3.4"], .absent⟩ "5.6.7.8"
      (by decide)).mpr (by decide)⟩

end IPBlocker
